import Mathlib

/-!
Verification of the actuation pipeline of the repository — the
`ServoController` of src/movclass.py — via a shallow embedding.

Python numbers are modelled as rationals, Python integers used by `range` as
`Int`, and a Python function that may raise is modelled in `Except PyError`.
The PWM sink (`lgpio.tx_pwm`) is an external collaborator: a single call's
outcome is passed in as a `SinkResult` (an exception, or an integer return
code, which `lgpio` makes negative on failure).

The detection script src/vision.py is not embedded: its line 22 reads
`i n` (two separate NAME tokens) where the keyword `in` is evidently
intended, which is a Python `SyntaxError`.  The module therefore fails to
compile before any statement runs, so it has no run-time semantics — no
frame is ever read, no candidate selected, no trigger fired.
-/

/-- Python exception classes that the embedded code can actually raise. -/
inductive PyError where
  | zeroDivisionError
  | valueError
deriving DecidableEq

/-- Outcome of one `lgpio.tx_pwm` call: `.error ()` models a raised
exception, `.ok code` models a returned status code (negative on failure). -/
abbrev SinkResult := Except Unit Int

/-- The `ServoController` object of src/movclass.py: its configuration
attributes together with the mutable `current_angle` attribute. -/
structure ServoController where
  pin : Int
  min_angle : ℚ
  max_angle : ℚ
  min_pulse_width : ℚ
  max_pulse_width : ℚ
  frequency : ℚ
  current_angle : ℚ
  debug : Bool
deriving DecidableEq

/-- The clamp `max(self.min_angle, min(self.max_angle, angle))` used in
`_angle_to_duty_cycle` and `set_angle`. -/
def clampAngle (s : ServoController) (angle : ℚ) : ℚ :=
  max s.min_angle (min s.max_angle angle)

/-- `ServoController._angle_to_duty_cycle`.  The two divisions raise
`ZeroDivisionError` in Python when the divisor is zero, in evaluation order:
first `pulse_range / angle_range`, then `1000000 / self.frequency`. -/
def angle_to_duty_cycle (s : ServoController) (angle : ℚ) : Except PyError ℚ :=
  let a := clampAngle s angle
  let angle_range := s.max_angle - s.min_angle
  let pulse_range := s.max_pulse_width - s.min_pulse_width
  if angle_range = 0 then .error .zeroDivisionError
  else
    let pulse_width := s.min_pulse_width + (a - s.min_angle) * (pulse_range / angle_range)
    if s.frequency = 0 then .error .zeroDivisionError
    else
      let period := 1000000 / s.frequency
      .ok (pulse_width / period * 100)

/-- `ServoController.set_angle`.  The duty-cycle computation sits outside the
`try` block, so its `ZeroDivisionError` propagates.  Inside the `try`, a
negative `tx_pwm` return code is only printed and the method still commits
`self.current_angle = angle`; a raised exception is caught and printed
(swallowed), skipping the commit. -/
def set_angle (s : ServoController) (angle : ℚ) (sink : SinkResult) :
    Except PyError ServoController :=
  let a := clampAngle s angle
  match angle_to_duty_cycle s a with
  | .error e => .error e
  | .ok _duty =>
      match sink with
      | .ok _code => .ok { s with current_angle := a }
      | .error _ => .ok s

/-- `ServoController.__init__`: sets `self.current_angle = 90` and then
issues `self.set_angle(90, hold_time=0.1)`; `sink` is the outcome of that
initial PWM command.  (The lgpio chip-open and pin-claim calls are external
plumbing and out of scope.) -/
def mkServoController (pin : Int) (min_angle max_angle : ℚ)
    (min_pulse_width max_pulse_width : ℚ) (frequency : ℚ) (debug : Bool)
    (sink : SinkResult) : Except PyError ServoController :=
  set_angle
    { pin := pin, min_angle := min_angle, max_angle := max_angle,
      min_pulse_width := min_pulse_width, max_pulse_width := max_pulse_width,
      frequency := frequency, current_angle := 90, debug := debug }
    90 sink

/-- The centre position `(self.min_angle + self.max_angle) / 2` used by
`ServoController.center`. -/
def center_angle (s : ServoController) : ℚ :=
  (s.min_angle + s.max_angle) / 2

/-- A controller built with the default constructor arguments of
`ServoController.__init__` (pin 18, angles 0..180, pulses 500..2500, 50 Hz),
after the field assignments and before the initial `set_angle` call. -/
def defaultServo : ServoController :=
  { pin := 18, min_angle := 0, max_angle := 180, min_pulse_width := 500,
    max_pulse_width := 2500, frequency := 50, current_angle := 90,
    debug := true }

/-- The default controller with the angle range narrowed to 0..100 — the
configuration used to exhibit that the initial angle is the constant 90
rather than the midpoint of the configured range. -/
def servo100 : ServoController :=
  { defaultServo with max_angle := 100 }

/-- Fuel-indexed model of Python `range(i, stop, step)` for a positive
`step`: emit `i` and advance by `step` while `i < stop`.  The fuel is only
an upper bound on the number of iterations; callers supply
`(stop - i).toNat`, which always suffices because each iteration advances
by at least one. -/
def pyRangeUpAux (step : Int) : Nat → Int → Int → List Int
  | 0, _, _ => []
  | f + 1, i, stop => if i < stop then i :: pyRangeUpAux step f (i + step) stop else []

/-- Python `range(start, stop, step)` as a list, for `step ≠ 0`.  A negative
`step` is modelled through negation: `range(start, stop, step)` enumerates
exactly the negations of `range(-start, -stop, -step)`.  `step = 0` (which
raises `ValueError` in Python) is handled by the caller and yields `[]`
here. -/
def pyRange (start stop step : Int) : List Int :=
  if 0 < step then pyRangeUpAux step (stop - start).toNat start stop
  else if step < 0 then
    (pyRangeUpAux (-step) (start - stop).toNat (-start) (-stop)).map (fun a => -a)
  else []

/-- The angles at which `ServoController.sweep` issues `set_angle` calls:
`range(start, end+1, step)` for a forward sweep (`start < end`), and
`range(start, end-1, -step)` otherwise.  `step = 0` makes `range` raise
`ValueError` in both branches, before any `set_angle` call. -/
def sweepAngles (start_angle end_angle step : Int) : Except PyError (List Int) :=
  if step = 0 then .error .valueError
  else if start_angle < end_angle then .ok (pyRange start_angle (end_angle + 1) step)
  else .ok (pyRange start_angle (end_angle - 1) (-step))

/-- Thread the `set_angle` calls of a sweep through the controller state;
`sink i` is the outcome of the PWM command of the i-th call. -/
def runCalls : ServoController → List Int → (Nat → SinkResult) → Nat →
    Except PyError ServoController
  | s, [], _, _ => .ok s
  | s, a :: rest, sink, i =>
      match set_angle s (a : ℚ) (sink i) with
      | .error e => .error e
      | .ok s' => runCalls s' rest sink (i + 1)

/-- `ServoController.sweep` with explicit endpoints (in the source the
endpoints default to the configured angle bounds when omitted; every claim
supplies them explicitly). -/
def sweep (s : ServoController) (start_angle end_angle step : Int)
    (sink : Nat → SinkResult) : Except PyError ServoController :=
  match sweepAngles start_angle end_angle step with
  | .error e => .error e
  | .ok angles => runCalls s angles sink 0

/-- A sink whose every call returns status code 0 (success). -/
def sinkOk : Nat → SinkResult := fun _ => Except.ok 0

deriving instance DecidableEq for Except


/-! ### Helper lemmas about `angle_to_duty_cycle` and `set_angle` -/

theorem angle_to_duty_cycle_eq {s : ServoController}
    (hA : s.max_angle - s.min_angle ≠ 0) (hF : s.frequency ≠ 0) (a : ℚ) :
    angle_to_duty_cycle s a =
      .ok ((s.min_pulse_width + (clampAngle s a - s.min_angle) *
          ((s.max_pulse_width - s.min_pulse_width) / (s.max_angle - s.min_angle))) /
        (1000000 / s.frequency) * 100) := by
  simp [angle_to_duty_cycle, hA, hF]

theorem set_angle_ok_commit {s : ServoController}
    (hA : s.max_angle - s.min_angle ≠ 0) (hF : s.frequency ≠ 0) (angle : ℚ) (code : Int) :
    set_angle s angle (Except.ok code) = .ok { s with current_angle := clampAngle s angle } := by
  rw [set_angle, angle_to_duty_cycle_eq hA hF]

theorem set_angle_sink_raise {s : ServoController}
    (hA : s.max_angle - s.min_angle ≠ 0) (hF : s.frequency ≠ 0) (angle : ℚ) :
    set_angle s angle (Except.error ()) = .ok s := by
  rw [set_angle, angle_to_duty_cycle_eq hA hF]

theorem set_angle_error_of_range {s : ServoController} (angle : ℚ) (sink : SinkResult)
    (h : s.max_angle - s.min_angle = 0) :
    set_angle s angle sink = .error PyError.zeroDivisionError := by
  simp [set_angle, angle_to_duty_cycle, h]

theorem set_angle_error_of_freq {s : ServoController} (angle : ℚ) (sink : SinkResult)
    (h1 : s.max_angle - s.min_angle ≠ 0) (h2 : s.frequency = 0) :
    set_angle s angle sink = .error PyError.zeroDivisionError := by
  simp [set_angle, angle_to_duty_cycle, h1, h2]

/-- Counterexample to C1: with the default configuration and
`current_angle = 90`, a `set_angle(0)` whose PWM sink returns the negative
status code -1 (a transport error) still commits `current_angle = 0` — the
state is not left unchanged, and no error is surfaced. -/
theorem C1_negative_code_commits_counterexample :
    set_angle defaultServo 0 (Except.ok (-1)) =
      .ok { defaultServo with current_angle := 0 } ∧
    ({ defaultServo with current_angle := 0 } : ServoController).current_angle ≠
      defaultServo.current_angle := by
  constructor
  · norm_num [set_angle, angle_to_duty_cycle, clampAngle, defaultServo]
  · norm_num [defaultServo]

/-- Claim C1 as amended: when the sink returns any integer status code —
including a negative (error) code — `set_angle` commits the clamped angle
anyway after only logging the error; when the sink raises, the exception is
caught and swallowed (no `ActuationError` reaches the caller) and
`current_angle` is left unchanged; in both cases the call returns normally,
so the driver remains usable for subsequent calls. -/
theorem C1_sink_error_amended (s : ServoController) (angle : ℚ)
    (hA : s.max_angle - s.min_angle ≠ 0) (hF : s.frequency ≠ 0) :
    (∀ code : Int, set_angle s angle (Except.ok code) =
      .ok { s with current_angle := clampAngle s angle }) ∧
    set_angle s angle (Except.error ()) = .ok s := by
  exact ⟨fun code => set_angle_ok_commit hA hF angle code, set_angle_sink_raise hA hF angle⟩

/-- Witness for C1 as amended, at the default configuration: a call with
sink code -1 commits the clamped angle, a call whose sink raises leaves the
controller unchanged. -/
theorem C1_sink_error_amended_witness :
    set_angle defaultServo 200 (Except.ok (-1)) =
      .ok { defaultServo with current_angle := clampAngle defaultServo 200 } ∧
    set_angle defaultServo 200 (Except.error ()) = .ok defaultServo :=
  ⟨(C1_sink_error_amended defaultServo 200 (by norm_num [defaultServo])
      (by norm_num [defaultServo])).1 (-1),
   (C1_sink_error_amended defaultServo 200 (by norm_num [defaultServo])
      (by norm_num [defaultServo])).2⟩

/-- Counterexample to C3: constructing the controller with the valid range
0..100 (midpoint 50) leaves `current_angle = 90`, not the midpoint of the
configured angle range. -/
theorem C3_midpoint_counterexample :
    mkServoController 18 0 100 500 2500 50 true (Except.ok 0) = .ok servo100 ∧
    center_angle servo100 ≠ servo100.current_angle := by
  constructor
  · norm_num [mkServoController, set_angle, angle_to_duty_cycle, clampAngle, servo100,
      defaultServo]
  · norm_num [center_angle, servo100, defaultServo]

/-- Claim C3 as amended: immediately after construction `current_angle`
equals the constant 90 clamped into the configured range (which coincides
with the midpoint for the default 0..180 range, but not in general), and
thereafter `current_angle` is changed only by `set_angle` calls whose sink
command does not raise. -/
theorem C3_init_amended (pin : Int) (minA maxA minP maxP freq : ℚ) (debug : Bool)
    (hA : maxA - minA ≠ 0) (hF : freq ≠ 0) :
    (∀ code : Int, mkServoController pin minA maxA minP maxP freq debug (Except.ok code) =
      .ok { pin := pin, min_angle := minA, max_angle := maxA, min_pulse_width := minP,
            max_pulse_width := maxP, frequency := freq,
            current_angle := max minA (min maxA 90), debug := debug }) ∧
    (∀ s : ServoController, s.max_angle - s.min_angle ≠ 0 → s.frequency ≠ 0 →
      ∀ angle : ℚ, set_angle s angle (Except.error ()) = .ok s) ∧
    mkServoController 18 0 180 500 2500 50 true (Except.ok 0) =
      .ok defaultServo ∧
    center_angle defaultServo = 90 := by
  refine ⟨?_, ?_, ?_, ?_⟩
  · intro code
    rw [mkServoController, set_angle_ok_commit hA hF]
    rfl
  · intro s hA' hF' angle
    exact set_angle_sink_raise hA' hF' angle
  · norm_num [mkServoController, set_angle, angle_to_duty_cycle, clampAngle, defaultServo]
  · norm_num [center_angle, defaultServo]

/-- Witness for C3 as amended, at the 0..100 configuration: construction
ends with `current_angle = max 0 (min 100 90) = 90`, and a sink-raising
`set_angle` leaves the freshly built controller unchanged. -/
theorem C3_init_amended_witness :
    mkServoController 18 0 100 500 2500 50 true (Except.ok 0) =
      .ok { pin := 18, min_angle := 0, max_angle := 100, min_pulse_width := 500,
            max_pulse_width := 2500, frequency := 50,
            current_angle := max 0 (min 100 90), debug := true } ∧
    set_angle servo100 40 (Except.error ()) = .ok servo100 :=
  ⟨(C3_init_amended 18 0 100 500 2500 50 true (by norm_num) (by norm_num)).1 0,
   (C3_init_amended 18 0 100 500 2500 50 true (by norm_num) (by norm_num)).2.1
     servo100 (by norm_num [servo100, defaultServo]) (by norm_num [servo100, defaultServo]) 40⟩

/-- Claim C4 (confirmed): a degenerate angle range (`max_angle = min_angle`)
makes construction fail — the initial centering command divides by the zero
angle range, raising `ZeroDivisionError` out of `__init__` — so such a
controller can never be used; conversely, for any controller a construction
did return, `angle_to_duty_cycle` never fails at call time.  (The source
defines no `ConfigError` class; the construction-time rejection is this
`ZeroDivisionError`.) -/
theorem C4_degenerate_range_rejected (pin : Int) (a minP maxP freq : ℚ) (debug : Bool) :
    (∀ sink : SinkResult, mkServoController pin a a minP maxP freq debug sink =
      .error PyError.zeroDivisionError) ∧
    (∀ (minA maxA : ℚ) (sink : SinkResult) (s : ServoController),
      mkServoController pin minA maxA minP maxP freq debug sink = .ok s →
      ∀ angle : ℚ, ∃ d, angle_to_duty_cycle s angle = .ok d) := by
  constructor
  · intro sink
    rw [mkServoController]
    exact set_angle_error_of_range _ _ (by norm_num)
  · intro minA maxA sink s h angle
    by_cases h1 : maxA - minA = 0
    · rw [mkServoController, set_angle_error_of_range _ _ (by simpa using h1)] at h
      cases h
    · by_cases h2 : freq = 0
      · rw [mkServoController, set_angle_error_of_freq _ _ (by simpa using h1) h2] at h
        cases h
      · cases sink with
        | ok code =>
            rw [mkServoController, set_angle_ok_commit (by simpa using h1) h2] at h
            cases h
            exact ⟨_, angle_to_duty_cycle_eq (by simpa using h1) h2 angle⟩
        | error u =>
            cases u
            rw [mkServoController, set_angle_sink_raise (by simpa using h1) h2] at h
            cases h
            exact ⟨_, angle_to_duty_cycle_eq (by simpa using h1) h2 angle⟩

/-- Witness for C4: the range 5..5 is rejected at construction with
`ZeroDivisionError`, while a successfully constructed default controller
computes a duty cycle for any requested angle. -/
theorem C4_degenerate_range_rejected_witness :
    mkServoController 18 5 5 500 2500 50 true (Except.ok 0) =
      .error PyError.zeroDivisionError ∧
    ∃ d, angle_to_duty_cycle defaultServo 45 = .ok d :=
  ⟨(C4_degenerate_range_rejected 18 5 500 2500 50 true).1 (Except.ok 0),
   (C4_degenerate_range_rejected 18 0 500 2500 50 true).2 0 180 (Except.ok 0) defaultServo
     (by norm_num [mkServoController, set_angle, angle_to_duty_cycle, clampAngle, defaultServo])
     45⟩

/-- Claim C6 (confirmed): with a valid configuration and an increasing pulse
range, `angle_to_duty_cycle` is monotone non-decreasing on angles inside
the configured range. -/
theorem C6_duty_cycle_monotone (s : ServoController) (a1 a2 : ℚ)
    (hA : s.min_angle < s.max_angle) (hP : s.min_pulse_width < s.max_pulse_width)
    (hF : 0 < s.frequency)
    (h1 : s.min_angle ≤ a1) (h2 : a1 ≤ s.max_angle)
    (h3 : s.min_angle ≤ a2) (h4 : a2 ≤ s.max_angle) (h12 : a1 ≤ a2) :
    ∃ d1 d2, angle_to_duty_cycle s a1 = .ok d1 ∧ angle_to_duty_cycle s a2 = .ok d2 ∧
      d1 ≤ d2 := by
  have hA' : s.max_angle - s.min_angle ≠ 0 := sub_ne_zero.mpr (ne_of_gt hA)
  have hF' : s.frequency ≠ 0 := ne_of_gt hF
  refine ⟨_, _, angle_to_duty_cycle_eq hA' hF' a1, angle_to_duty_cycle_eq hA' hF' a2, ?_⟩
  have hc : clampAngle s a1 ≤ clampAngle s a2 :=
    max_le_max le_rfl (min_le_min le_rfl h12)
  have hslope : 0 ≤ (s.max_pulse_width - s.min_pulse_width) / (s.max_angle - s.min_angle) :=
    le_of_lt (div_pos (sub_pos.mpr hP) (sub_pos.mpr hA))
  have hperiod : 0 < 1000000 / s.frequency := by positivity
  have hpulse :
      s.min_pulse_width + (clampAngle s a1 - s.min_angle) *
          ((s.max_pulse_width - s.min_pulse_width) / (s.max_angle - s.min_angle)) ≤
        s.min_pulse_width + (clampAngle s a2 - s.min_angle) *
          ((s.max_pulse_width - s.min_pulse_width) / (s.max_angle - s.min_angle)) :=
    add_le_add_left (mul_le_mul_of_nonneg_right (sub_le_sub_right hc _) hslope) _
  have hdiv := (div_le_div_right hperiod).mpr hpulse
  exact mul_le_mul_of_nonneg_right hdiv (by norm_num)

/-- Witness for C6 at the default configuration, angles 30 and 60. -/
theorem C6_duty_cycle_monotone_witness :
    ∃ d1 d2, angle_to_duty_cycle defaultServo 30 = .ok d1 ∧
      angle_to_duty_cycle defaultServo 60 = .ok d2 ∧ d1 ≤ d2 :=
  C6_duty_cycle_monotone defaultServo 30 60 (by norm_num [defaultServo])
    (by norm_num [defaultServo]) (by norm_num [defaultServo]) (by norm_num [defaultServo])
    (by norm_num [defaultServo]) (by norm_num [defaultServo]) (by norm_num [defaultServo])
    (by norm_num)

/-- Claim C7 (confirmed): with a valid configuration whose pulse range fits
in the PWM period, the duty cycle lies in [0, 100] for every requested
angle, in range or not (the angle is clamped first). -/
theorem C7_duty_cycle_in_range (s : ServoController) (a : ℚ)
    (hA : s.min_angle < s.max_angle) (hp0 : 0 < s.min_pulse_width)
    (hP : s.min_pulse_width < s.max_pulse_width) (hF : 0 < s.frequency)
    (hle : s.max_pulse_width ≤ 1000000 / s.frequency) :
    ∃ d, angle_to_duty_cycle s a = .ok d ∧ 0 ≤ d ∧ d ≤ 100 := by
  have hA' : s.max_angle - s.min_angle ≠ 0 := sub_ne_zero.mpr (ne_of_gt hA)
  have hF' : s.frequency ≠ 0 := ne_of_gt hF
  refine ⟨_, angle_to_duty_cycle_eq hA' hF' a, ?_, ?_⟩
  all_goals
    have hc1 : s.min_angle ≤ clampAngle s a := le_max_left _ _
    have hc2 : clampAngle s a ≤ s.max_angle := max_le (le_of_lt hA) (min_le_left _ _)
    have hslope : 0 ≤ (s.max_pulse_width - s.min_pulse_width) / (s.max_angle - s.min_angle) :=
      le_of_lt (div_pos (sub_pos.mpr hP) (sub_pos.mpr hA))
    have hperiod : 0 < 1000000 / s.frequency := by positivity
    have hr0 : 0 ≤ (clampAngle s a - s.min_angle) *
        ((s.max_pulse_width - s.min_pulse_width) / (s.max_angle - s.min_angle)) :=
      mul_nonneg (sub_nonneg.mpr hc1) hslope
    have heq : (s.max_angle - s.min_angle) *
        ((s.max_pulse_width - s.min_pulse_width) / (s.max_angle - s.min_angle)) =
        s.max_pulse_width - s.min_pulse_width := by
      rw [mul_comm, div_mul_cancel₀ _ hA']
    have hrle : (clampAngle s a - s.min_angle) *
        ((s.max_pulse_width - s.min_pulse_width) / (s.max_angle - s.min_angle)) ≤
        s.max_pulse_width - s.min_pulse_width :=
      calc (clampAngle s a - s.min_angle) *
            ((s.max_pulse_width - s.min_pulse_width) / (s.max_angle - s.min_angle))
          ≤ (s.max_angle - s.min_angle) *
            ((s.max_pulse_width - s.min_pulse_width) / (s.max_angle - s.min_angle)) :=
            mul_le_mul_of_nonneg_right (sub_le_sub_right hc2 _) hslope
        _ = s.max_pulse_width - s.min_pulse_width := heq
  · exact mul_nonneg (div_nonneg (by linarith) (le_of_lt hperiod)) (by norm_num)
  · have hpulse_le : s.min_pulse_width + (clampAngle s a - s.min_angle) *
        ((s.max_pulse_width - s.min_pulse_width) / (s.max_angle - s.min_angle)) ≤
        1000000 / s.frequency := by linarith
    have hdle : (s.min_pulse_width + (clampAngle s a - s.min_angle) *
        ((s.max_pulse_width - s.min_pulse_width) / (s.max_angle - s.min_angle))) /
        (1000000 / s.frequency) ≤ 1 :=
      (div_le_one hperiod).mpr hpulse_le
    calc (s.min_pulse_width + (clampAngle s a - s.min_angle) *
        ((s.max_pulse_width - s.min_pulse_width) / (s.max_angle - s.min_angle))) /
        (1000000 / s.frequency) * 100 ≤ 1 * 100 :=
          mul_le_mul_of_nonneg_right hdle (by norm_num)
      _ = 100 := one_mul 100

/-- Witness for C7 at the default configuration (period 20000 us, pulse
bound 2500 us), with the out-of-range request 999 degrees. -/
theorem C7_duty_cycle_in_range_witness :
    ∃ d, angle_to_duty_cycle defaultServo 999 = .ok d ∧ 0 ≤ d ∧ d ≤ 100 :=
  C7_duty_cycle_in_range defaultServo 999 (by norm_num [defaultServo])
    (by norm_num [defaultServo]) (by norm_num [defaultServo]) (by norm_num [defaultServo])
    (by norm_num [defaultServo])

/-! ### Helper lemmas about `pyRange` and `sweepAngles` -/

theorem mem_pyRangeUpAux {step : Int} (hstep : 0 < step) :
    ∀ (f : Nat) (i stop a : Int), (stop - i).toNat ≤ f →
      (a ∈ pyRangeUpAux step f i stop ↔ step ∣ a - i ∧ i ≤ a ∧ a < stop) := by
  intro f
  induction f with
  | zero =>
      intro i stop a hf
      simp only [pyRangeUpAux, List.not_mem_nil, false_iff]
      rintro ⟨-, h1, h2⟩
      omega
  | succ f ih =>
      intro i stop a hf
      by_cases hi : i < stop
      · rw [pyRangeUpAux, if_pos hi]
        have hf' : (stop - (i + step)).toNat ≤ f := by omega
        rw [List.mem_cons, ih (i + step) stop a hf']
        constructor
        · rintro (rfl | ⟨⟨k, hk⟩, hk1, hk2⟩)
          · exact ⟨⟨0, by ring⟩, le_refl a, hi⟩
          · refine ⟨⟨k + 1, by linear_combination hk⟩, by omega, hk2⟩
        · rintro ⟨⟨k, hk⟩, hk1, hk2⟩
          by_cases ha : a = i
          · exact Or.inl ha
          · right
            have hk0 : 1 ≤ k := by
              by_contra hneg
              have hk' : k ≤ 0 := by omega
              have : step * k ≤ 0 :=
                mul_nonpos_of_nonneg_of_nonpos (le_of_lt hstep) hk'
              omega
            have hstepk : step * 1 ≤ step * k :=
              mul_le_mul_of_nonneg_left hk0 (le_of_lt hstep)
            refine ⟨⟨k - 1, by linear_combination hk⟩, ?_, hk2⟩
            have : step * 1 = step := mul_one step
            omega
      · rw [pyRangeUpAux, if_neg hi]
        simp only [List.not_mem_nil, false_iff]
        rintro ⟨-, h1, h2⟩
        omega

theorem mem_pyRange_pos {start stop step a : Int} (h : 0 < step) :
    a ∈ pyRange start stop step ↔ step ∣ a - start ∧ start ≤ a ∧ a < stop := by
  rw [pyRange, if_pos h]
  exact mem_pyRangeUpAux h _ start stop a (le_refl _)

theorem mem_pyRange_neg {start stop step a : Int} (h : step < 0) :
    a ∈ pyRange start stop step ↔ step ∣ a - start ∧ a ≤ start ∧ stop < a := by
  rw [pyRange, if_neg (by omega), if_pos h]
  have hpos : 0 < -step := by omega
  constructor
  · intro hm
    rcases List.mem_map.mp hm with ⟨b, hb, rfl⟩
    rw [mem_pyRangeUpAux hpos _ _ _ _ (by omega)] at hb
    rcases hb with ⟨⟨k, hk⟩, h1, h2⟩
    refine ⟨⟨k, by linear_combination -hk⟩, by omega, by omega⟩
  · rintro ⟨⟨k, hk⟩, h1, h2⟩
    refine List.mem_map.mpr ⟨-a, ?_, by ring⟩
    rw [mem_pyRangeUpAux hpos _ _ _ _ (by omega)]
    exact ⟨⟨k, by linear_combination -hk⟩, by omega, by omega⟩

theorem sweepAngles_forward {s e step : Int} (hstep : 0 < step) (hse : s < e) :
    sweepAngles s e step = .ok (pyRange s (e + 1) step) ∧
    ∀ a, a ∈ pyRange s (e + 1) step ↔ step ∣ a - s ∧ s ≤ a ∧ a ≤ e := by
  constructor
  · rw [sweepAngles, if_neg (by omega), if_pos hse]
  · intro a
    rw [mem_pyRange_pos hstep]
    constructor
    · rintro ⟨hd, h1, h2⟩
      exact ⟨hd, h1, by omega⟩
    · rintro ⟨hd, h1, h2⟩
      exact ⟨hd, h1, by omega⟩


theorem sweepAngles_backward {s e step : Int} (hstep : 0 < step) (hse : e ≤ s) :
    sweepAngles s e step = .ok (pyRange s (e - 1) (-step)) ∧
    ∀ a, a ∈ pyRange s (e - 1) (-step) ↔ step ∣ s - a ∧ e ≤ a ∧ a ≤ s := by
  constructor
  · rw [sweepAngles, if_neg (by omega), if_neg (by omega)]
  · intro a
    rw [mem_pyRange_neg (by omega)]
    constructor
    · rintro ⟨⟨k, hk⟩, h1, h2⟩
      exact ⟨⟨k, by linear_combination -hk⟩, by omega, h1⟩
    · rintro ⟨⟨k, hk⟩, h1, h2⟩
      exact ⟨⟨k, by linear_combination -hk⟩, h2, by omega⟩

/-- Counterexample to C5: `sweep(0, 10, step=3)` issues calls at 0, 3, 6, 9
only — the end angle 10 is not included, because the step does not divide
the distance. -/
theorem C5_inclusive_end_counterexample :
    sweepAngles 0 10 3 = .ok [0, 3, 6, 9] ∧ (10 : Int) ∉ ([0, 3, 6, 9] : List Int) := by
  decide

/-- Claim C5 as amended: for `step > 0` a forward sweep issues exactly the
angles `start + k*step` that do not pass `end` (so `end` is reached exactly
when `step` divides `end - start`), a backward sweep the angles
`start - k*step` down to `end` likewise; `sweep(0, 180, step=5)` issues
exactly 37 calls at 0, 5, ..., 180 in ascending order. -/
theorem C5_sweep_amended :
    sweepAngles 0 180 5 =
      .ok [0, 5, 10, 15, 20, 25, 30, 35, 40, 45, 50, 55, 60, 65, 70, 75, 80, 85, 90,
           95, 100, 105, 110, 115, 120, 125, 130, 135, 140, 145, 150, 155, 160, 165,
           170, 175, 180] ∧
    (∀ s e step : Int, 0 < step → s < e →
      ∃ angles, sweepAngles s e step = .ok angles ∧
        ∀ a, a ∈ angles ↔ (step ∣ a - s ∧ s ≤ a ∧ a ≤ e)) ∧
    (∀ s e step : Int, 0 < step → e ≤ s →
      ∃ angles, sweepAngles s e step = .ok angles ∧
        ∀ a, a ∈ angles ↔ (step ∣ s - a ∧ e ≤ a ∧ a ≤ s)) := by
  refine ⟨by decide, ?_, ?_⟩
  · intro s e step hstep hse
    exact ⟨_, (sweepAngles_forward hstep hse).1, (sweepAngles_forward hstep hse).2⟩
  · intro s e step hstep hse
    exact ⟨_, (sweepAngles_backward hstep hse).1, (sweepAngles_backward hstep hse).2⟩

/-- Witness for C5 as amended, at `sweep(0, 10, 3)`: the issued angles are
exactly the multiples of 3 between 0 and 10. -/
theorem C5_sweep_amended_witness :
    ∃ angles, sweepAngles 0 10 3 = .ok angles ∧
      ∀ a, a ∈ angles ↔ ((3 : Int) ∣ a - 0 ∧ 0 ≤ a ∧ a ≤ 10) :=
  C5_sweep_amended.2.1 0 10 3 (by decide) (by decide)

/-- Counterexample to C10: `sweep(0, 180, step=-5)` is not rejected with any
error — both `range` calls are empty, so the sweep silently issues no
`set_angle` call and returns with the state unchanged. -/
theorem C10_negative_step_counterexample :
    sweep defaultServo 0 180 (-5) sinkOk = .ok defaultServo ∧
    sweepAngles 0 180 (-5) = .ok [] := by
  constructor
  · rfl
  · rfl

/-- Claim C10 as amended: `step = 0` raises `ValueError` (from `range`)
before any `set_angle` call; `step < 0` is not rejected at all — the sweep
issues no `set_angle` call and returns normally, leaving the controller
unchanged. -/
theorem C10_step_validation_amended (s : ServoController) (sa ea : Int)
    (sink : Nat → SinkResult) :
    (sweepAngles sa ea 0 = .error PyError.valueError ∧
      sweep s sa ea 0 sink = .error PyError.valueError) ∧
    (∀ step : Int, step < 0 →
      sweepAngles sa ea step = .ok [] ∧ sweep s sa ea step sink = .ok s) := by
  have h0 : sweepAngles sa ea 0 = .error PyError.valueError := by
    rw [sweepAngles, if_pos rfl]
  refine ⟨⟨h0, ?_⟩, ?_⟩
  · rw [sweep, h0]
  · intro step hstep
    have hag : sweepAngles sa ea step = .ok [] := by
      rw [sweepAngles, if_neg (by omega)]
      by_cases hse : sa < ea
      · rw [if_pos hse, pyRange, if_neg (by omega), if_pos hstep]
        have ht : (sa - (ea + 1)).toNat = 0 := by omega
        rw [ht]
        rfl
      · rw [if_neg hse, pyRange, if_pos (by omega)]
        have ht : (ea - 1 - sa).toNat = 0 := by omega
        rw [ht]
        rfl
    refine ⟨hag, ?_⟩
    rw [sweep, hag]
    rfl

/-- Witness for C10 as amended, at the default controller with the
spec scenario endpoints 0 and 180. -/
theorem C10_step_validation_amended_witness :
    sweep defaultServo 0 180 0 sinkOk = .error PyError.valueError ∧
    sweepAngles 0 180 (-3) = .ok [] ∧
    sweep defaultServo 0 180 (-3) sinkOk = .ok defaultServo :=
  ⟨(C10_step_validation_amended defaultServo 0 180 sinkOk).1.2,
   ((C10_step_validation_amended defaultServo 0 180 sinkOk).2 (-3) (by decide)).1,
   ((C10_step_validation_amended defaultServo 0 180 sinkOk).2 (-3) (by decide)).2⟩
